import Mathlib

/-!
Verification of the permit-query core (`backend/permit/queries.py` and
`backend/permit/tools.py`) of the permit-management assistant.

The database container is modelled as a list of permit documents plus a
failure flag: `failing = some e` means the record-store gateway raises an
exception (with message `e`) whenever a query is executed, mirroring the
`try/except` blocks around `container.query_items` in the source.  Each
query function of `queries.py` is embedded as a Lean function over this
container; the Cosmos SQL text built by the function is translated into
the corresponding filter / projection / aggregation on the document list
(`JOIN p IN c.permits` becomes flattening into document–entry pairs, the
`WHERE` clause becomes a boolean predicate, string comparison of
`YYYY-MM-DD` date strings is lexicographic as in Cosmos).  The Python
post-processing (`items.sort(key=..., reverse=...)`) is embedded with
`List.mergeSort` on the same key (missing keys default to `""`, as
`x.get('issueDate', '')` does).

Dates: `datetime.now()` is modelled by an explicit parameter (a calendar
date, plus — where the source subtracts a full `datetime` — a flag telling
whether the clock is strictly past midnight).  `datetime.strptime(s,
"%Y-%m-%d")` is modelled by `parseDate`, and `timedelta` day arithmetic by
a day-number conversion (proleptic Gregorian calendar).
-/

namespace Permit

/-- A calendar date, as produced by `datetime.strptime(s, "%Y-%m-%d")`. -/
structure Date where
  year : Int
  month : Nat
  day : Nat
deriving Repr, DecidableEq

/-- Gregorian leap-year rule (as used by Python's `datetime` validation). -/
def isLeap (y : Int) : Bool :=
  y % 4 = 0 && (y % 100 ≠ 0 || y % 400 = 0)

/-- Number of days in a month (`datetime` validates the day against this). -/
def daysInMonth (y : Int) (m : Nat) : Nat :=
  if m = 2 then (if isLeap y then 29 else 28)
  else if m = 4 || m = 6 || m = 9 || m = 11 then 30
  else 31

/-- A `Date` that `datetime(year, month, day)` would accept: year in
`1..9999`, month in `1..12`, day within the month. -/
def Date.valid (d : Date) : Bool :=
  1 ≤ d.year && d.year ≤ 9999 && 1 ≤ d.month && d.month ≤ 12 &&
  1 ≤ d.day && d.day ≤ daysInMonth d.year d.month

/-- Serial day number of a civil date (proleptic Gregorian), i.e. the
day-count underlying `timedelta` differences between midnight datetimes. -/
def Date.toDayNumber (dt : Date) : Int :=
  let y : Int := if dt.month ≤ 2 then dt.year - 1 else dt.year
  let era : Int := Int.ediv y 400
  let yoe : Int := y - era * 400
  let mp : Int := if dt.month ≤ 2 then (dt.month : Int) + 9 else (dt.month : Int) - 3
  let doy : Int := Int.ediv (153 * mp + 2) 5 + (dt.day : Int) - 1
  let doe : Int := yoe * 365 + Int.ediv yoe 4 - Int.ediv yoe 100 + doy
  era * 146097 + doe - 719468

/-- Civil date of a serial day number (inverse of `Date.toDayNumber`). -/
def Date.ofDayNumber (z0 : Int) : Date :=
  let z : Int := z0 + 719468
  let era : Int := Int.ediv z 146097
  let doe : Int := z - era * 146097
  let yoe : Int := Int.ediv (doe - Int.ediv doe 1460 + Int.ediv doe 36524 - Int.ediv doe 146096) 365
  let y : Int := yoe + era * 400
  let doy : Int := doe - (365 * yoe + Int.ediv yoe 4 - Int.ediv yoe 100)
  let mp : Int := Int.ediv (5 * doy + 2) 153
  let d : Int := doy - Int.ediv (153 * mp + 2) 5 + 1
  let m : Int := if mp < 10 then mp + 3 else mp - 9
  { year := y + (if m ≤ 2 then 1 else 0), month := m.toNat, day := d.toNat }

/-- `date + timedelta(days = n)`. -/
def Date.addDays (d : Date) (n : Int) : Date :=
  Date.ofDayNumber (d.toDayNumber + n)

/-- Left-pad a numeral string with zeros. -/
def padZeros (width : Nat) (s : String) : String :=
  if s.length < width then String.mk (List.replicate (width - s.length) '0') ++ s else s

/-- `strftime("%Y-%m-%d")`: render a date as a `YYYY-MM-DD` string. -/
def Date.toYMD (d : Date) : String :=
  padZeros 4 (toString d.year) ++ "-" ++ padZeros 2 (toString d.month) ++ "-" ++ padZeros 2 (toString d.day)

/-- Split a character list at every `-` (the pieces of `s.split("-")` /
`strptime`'s field boundaries); empty pieces are kept. -/
def splitOnDash : List Char → List (List Char)
  | [] => [[]]
  | x :: xs =>
    if x = '-' then [] :: splitOnDash xs
    else
      match splitOnDash xs with
      | [] => [[x]]
      | p :: ps => (x :: p) :: ps

/-- Is the character list a base-ten numeral (digits only, non-empty)? -/
def isDigits (l : List Char) : Bool :=
  !l.isEmpty && l.all Char.isDigit

/-- Value of a digit list (the numeral's value, as `int(...)` reads it). -/
def digitsVal (l : List Char) : Nat :=
  l.foldl (fun n c => n * 10 + (c.toNat - 48)) 0

/-- The `%m` field of `strptime`: one or two digits (its regex
`1[0-2]|0[1-9]|[1-9]` never spans more than two characters; the month
value is checked by `Date.valid`, matching which digit strings the regex
plus `datetime` validation accept). -/
def parseMonthField (l : List Char) : Option Nat :=
  if isDigits l && l.length ≤ 2 then some (digitsVal l) else none

/-- The `%d` field of `strptime`: one or two digits, or — a quirk of its
regex `3[0-1]|[1-2]\d|0[1-9]|[1-9]| [1-9]` — a space-padded single digit
`1..9`; the day value is checked by `Date.valid`. -/
def parseDayField (l : List Char) : Option Nat :=
  match l with
  | [' ', c] => if c.isDigit && c ≠ '0' then some (c.toNat - 48) else none
  | _ => if isDigits l && l.length ≤ 2 then some (digitsVal l) else none

/-- `datetime.strptime(s, "%Y-%m-%d")`: the format's literal `-`s split
the string into exactly three fields — `%Y` is exactly four digits (its
regex is `\d\d\d\d`), `%m` one or two digits, `%d` one or two digits or
a space-padded single digit — and `datetime(year, month, day)` then
validates the calendar date (year `1..9999`); `none` models the
`ValueError` raise.  Digits are `0-9`, the alphabet of the `YYYY-MM-DD`
date strings of the data model. -/
def parseDate (s : String) : Option Date :=
  match splitOnDash s.data with
  | [ys, ms, ds] =>
    if isDigits ys && ys.length = 4 then
      match parseMonthField ms, parseDayField ds with
      | some m, some dd =>
        let d : Date := { year := (digitsVal ys : Nat), month := m, day := dd }
        if d.valid then some d else none
      | _, _ => none
    else none
  | _ => none

/-- Lexicographic string comparison (how Cosmos orders the `YYYY-MM-DD`
date strings), computed on the underlying character lists. -/
def strLt (a b : String) : Bool :=
  decide (a.data < b.data)

/-- Non-strict lexicographic string comparison. -/
def strLe (a b : String) : Bool :=
  decide (a.data ≤ b.data)

/-! ## Data model (spec §3; the shape the Cosmos queries project from) -/

/-- A permit entry nested in a document (`p IN c.permits`).  `issueDate`
and `expirationDate` are optional: a missing value models the field being
undefined in the stored JSON (the spec marks `expirationDate` optional —
populated only for PLO documents). -/
structure PermitEntry where
  permitNumber : String
  issueDate : Option String := none
  expirationDate : Option String := none
  permitSummary : String := ""
  installation : String := ""
deriving Repr, DecidableEq

/-- A top-level permit document. -/
structure Document where
  documentTitle : String := ""
  permitType : String := ""
  organization : String := ""
  filepath : String := ""
  permits : List PermitEntry := []
deriving Repr, DecidableEq

/-- A row returned by `container.query_items`: the fields projected by the
`SELECT` clause.  A field the query does not project (or that is undefined
on the entry) is `none`, so `x.get('issueDate', '')` becomes
`(row.issueDate).getD ""`. -/
structure Row where
  documentTitle : Option String := none
  permitType : Option String := none
  organization : Option String := none
  filepath : Option String := none
  issueDate : Option String := none
  expirationDate : Option String := none
  permitSummary : Option String := none
  permitNumber : Option String := none
  installation : Option String := none
deriving Repr, DecidableEq

/-- The CosmosDB container handle.  `failing = some e` means every
`container.query_items` call raises an exception with message `e`
(exercising the `except` branches of `queries.py`); `failing = none`
means the gateway evaluates the query over `docs`. -/
structure Container where
  docs : List Document
  failing : Option String := none

/-- `FROM c JOIN p IN c.permits`: all document–entry pairs, in storage
order (a document with no entries contributes none). -/
def joinPairs (docs : List Document) : List (Document × PermitEntry) :=
  docs.flatMap (fun d => d.permits.map (fun p => (d, p)))

/-- Python truthiness of an optional string argument (`if permit_type:`):
present and non-empty. -/
def strTruthy : Option String → Bool
  | none => false
  | some s => decide (s ≠ "")

/-- Python truthiness of an optional int argument (`if ... and year:`). -/
def intTruthy : Option Int → Bool
  | none => false
  | some y => y ≠ 0

/-- `YEAR(dateString)` for a `YYYY-MM-DD` string: its leading 4-digit
year, `none` when the string does not start with one (an undefined result
makes the `WHERE` comparison false). -/
def yearOfStr (s : String) : Option Int :=
  let l := s.data.take 4
  if isDigits l then some (digitsVal l : Nat) else none

/-- The year condition `YEAR(p.<dateField>) <op> @year` of the issue-year /
expiration-year queries: `greater` → `>=`, `less` → `<=`, anything else
(the `else` branch, covering `equal`) → `=`; false when the date field or
its year is undefined. -/
def yearSat (op : String) (dateField : Option String) (y : Int) : Bool :=
  match dateField with
  | none => false
  | some s =>
    match yearOfStr s with
    | none => false
    | some dy =>
      if op = "greater" then decide (y ≤ dy)
      else if op = "less" then decide (dy ≤ y)
      else decide (dy = y)

/-- Insert an element in front of the first entry it is `le`-below
(keeping it after every earlier equal-key entry: stability). -/
def orderedInsertB {α : Type} (le : α → α → Bool) (a : α) : List α → List α
  | [] => [a]
  | b :: l => if le a b then a :: b :: l else b :: orderedInsertB le a l

/-- Stable sort by the boolean relation `le`.  Python's `list.sort` is a
stable sort, and the result of a stable sort is uniquely determined by
the key order and the input order, so this is extensionally the sort the
source performs. -/
def insertionSortB {α : Type} (le : α → α → Bool) : List α → List α
  | [] => []
  | b :: l => orderedInsertB le b (insertionSortB le l)

/-- `items.sort(key=..., reverse = (order_by == 'latest'))`:
descending by key for `'latest'`, ascending otherwise. -/
def sortRows (key : Row → String) (order_by : String) (items : List Row) : List Row :=
  if order_by = "latest" then insertionSortB (fun a b => strLe (key b) (key a)) items
  else insertionSortB (fun a b => strLe (key a) (key b)) items

/-- Sort key `x.get('issueDate', '')`. -/
def Row.issueKey (r : Row) : String := r.issueDate.getD ""

/-- Sort key `x.get('expirationDate', '')`. -/
def Row.expKey (r : Row) : String := r.expirationDate.getD ""

/-! ## Query Builder (`backend/permit/queries.py`) -/

/-- Projection of `query_documents_by_issue_year`'s `SELECT` clause. -/
def issueYearRow (d : Document) (p : PermitEntry) : Row :=
  { documentTitle := some d.documentTitle, permitType := some d.permitType,
    organization := some d.organization, issueDate := p.issueDate,
    permitSummary := some p.permitSummary, permitNumber := some p.permitNumber }

/-- `WHERE` clause of `query_documents_by_issue_year`: each condition is
appended only when its parameter is truthy. -/
def issueYearCond (permit_type : Option String) (year : Option Int)
    (organization : Option String) (operator : Option String)
    (d : Document) (p : PermitEntry) : Bool :=
  (!strTruthy permit_type || d.permitType == permit_type.getD "") &&
  (!(strTruthy operator && intTruthy year) || yearSat (operator.getD "") p.issueDate (year.getD 0)) &&
  (!strTruthy organization || d.organization == organization.getD "")

/-- `query_documents_by_issue_year`: filter document–entry pairs by the
built `WHERE` clause, then sort by `issueDate` (`latest` = descending);
a gateway exception yields `[]`. -/
def query_documents_by_issue_year (container : Container)
    (permit_type : Option String := none) (year : Option Int := none)
    (organization : Option String := none) (operator : Option String := none)
    (order_by : String := "latest") : List Row :=
  match container.failing with
  | some _ => []
  | none =>
    let items := (joinPairs container.docs).filterMap (fun dp =>
      if issueYearCond permit_type year organization operator dp.1 dp.2
      then some (issueYearRow dp.1 dp.2) else none)
    sortRows Row.issueKey order_by items

/-- Projection of `query_documents_by_expiration_year`'s `SELECT` clause. -/
def expYearRow (d : Document) (p : PermitEntry) : Row :=
  { documentTitle := some d.documentTitle, permitType := some d.permitType,
    organization := some d.organization, expirationDate := p.expirationDate,
    permitSummary := some p.permitSummary, permitNumber := some p.permitNumber }

/-- `WHERE` clause of `query_documents_by_expiration_year`. -/
def expYearCond (permit_type : Option String) (year : Option Int)
    (organization : Option String) (operator : Option String)
    (d : Document) (p : PermitEntry) : Bool :=
  (!strTruthy permit_type || d.permitType == permit_type.getD "") &&
  (!(strTruthy operator && intTruthy year) || yearSat (operator.getD "") p.expirationDate (year.getD 0)) &&
  (!strTruthy organization || d.organization == organization.getD "")

/-- `query_documents_by_expiration_year`: same shape as the issue-year
query, applied to `expirationDate`. -/
def query_documents_by_expiration_year (container : Container)
    (permit_type : Option String := none) (year : Option Int := none)
    (organization : Option String := none) (operator : Option String := none)
    (order_by : String := "latest") : List Row :=
  match container.failing with
  | some _ => []
  | none =>
    let items := (joinPairs container.docs).filterMap (fun dp =>
      if expYearCond permit_type year organization operator dp.1 dp.2
      then some (expYearRow dp.1 dp.2) else none)
    sortRows Row.expKey order_by items

/-- Projection shared by the expired and expiring-soon queries. -/
def expiryRow (d : Document) (p : PermitEntry) : Row :=
  { documentTitle := some d.documentTitle, permitType := some d.permitType,
    organization := some d.organization, filepath := some d.filepath,
    expirationDate := p.expirationDate, permitSummary := some p.permitSummary,
    permitNumber := some p.permitNumber, installation := some p.installation }

/-- `WHERE p.expirationDate < @currentDate AND c.permitType = 'PLO'`
(plus the optional organization condition) of `query_expired_documents`;
Cosmos compares the `YYYY-MM-DD` strings lexicographically, and an
undefined `expirationDate` fails the comparison. -/
def expiredCond (currentDate : String) (organization : Option String)
    (d : Document) (p : PermitEntry) : Bool :=
  (match p.expirationDate with
   | none => false
   | some e => strLt e currentDate) &&
  d.permitType == "PLO" &&
  (!strTruthy organization || d.organization == organization.getD "")

/-- `query_expired_documents`: `current_date = datetime.now().strftime("%Y-%m-%d")`
is computed once per call from the `today` parameter. -/
def query_expired_documents (today : Date) (container : Container)
    (organization : Option String := none) (order_by : String := "latest") : List Row :=
  let current_date := today.toYMD
  match container.failing with
  | some _ => []
  | none =>
    let items := (joinPairs container.docs).filterMap (fun dp =>
      if expiredCond current_date organization dp.1 dp.2
      then some (expiryRow dp.1 dp.2) else none)
    sortRows Row.expKey order_by items

/-- `WHERE p.expirationDate >= @currentDate AND p.expirationDate <= @futureDate
AND c.permitType = 'PLO'` (plus the optional organization condition) of
`query_documents_expiring_soon`. -/
def expiringCond (currentDate futureDate : String) (organization : Option String)
    (d : Document) (p : PermitEntry) : Bool :=
  (match p.expirationDate with
   | none => false
   | some e => strLe currentDate e && strLe e futureDate) &&
  d.permitType == "PLO" &&
  (!strTruthy organization || d.organization == organization.getD "")

/-- `query_documents_expiring_soon`: `future_date = (current_date +
timedelta(days=days)).strftime("%Y-%m-%d")`; default sort order is
`'earliest'` (ascending), unlike the other query shapes. -/
def query_documents_expiring_soon (today : Date) (container : Container)
    (days : Int := 30) (organization : Option String := none)
    (order_by : String := "earliest") : List Row :=
  let future_date := (today.addDays days).toYMD
  let current_date_str := today.toYMD
  match container.failing with
  | some _ => []
  | none =>
    let items := (joinPairs container.docs).filterMap (fun dp =>
      if expiringCond current_date_str future_date organization dp.1 dp.2
      then some (expiryRow dp.1 dp.2) else none)
    sortRows Row.expKey order_by items

/-- Projection of the by-number and by-installation queries (all nine
fields). -/
def fullRow (d : Document) (p : PermitEntry) : Row :=
  { documentTitle := some d.documentTitle, permitType := some d.permitType,
    organization := some d.organization, filepath := some d.filepath,
    issueDate := p.issueDate, expirationDate := p.expirationDate,
    permitSummary := some p.permitSummary, permitNumber := some p.permitNumber,
    installation := some p.installation }

/-- `query_permit_by_number`: a falsy permit number short-circuits to
`None` before any query is issued; otherwise the first row with
`p.permitNumber = @permitNumber` is returned, `None` when there is no
match or the gateway raises. -/
def query_permit_by_number (container : Container)
    (permit_number : Option String := none) : Option Row :=
  if !strTruthy permit_number then none
  else
    match container.failing with
    | some _ => none
    | none =>
      let items := (joinPairs container.docs).filterMap (fun dp =>
        if dp.2.permitNumber == permit_number.getD ""
        then some (fullRow dp.1 dp.2) else none)
      items.head?

/-- `CONTAINS(LOWER(p.installation), LOWER(@installation))`:
case-insensitive substring containment. -/
def containsCI (hay needle : String) : Bool :=
  decide (List.IsInfix (needle.data.map Char.toLower) (hay.data.map Char.toLower))

/-- `query_permits_by_installation`: a falsy installation short-circuits
to `[]` before any query is issued; otherwise case-insensitive substring
match on `installation`, with the optional `permitType` condition.  No
sort is applied by this query. -/
def query_permits_by_installation (container : Container)
    (installation : Option String := none)
    (permit_type : Option String := none) : List Row :=
  if !strTruthy installation then []
  else
    match container.failing with
    | some _ => []
    | none =>
      (joinPairs container.docs).filterMap (fun dp =>
        if containsCI dp.2.installation (installation.getD "") &&
           (!strTruthy permit_type || dp.1.permitType == permit_type.getD "")
        then some (fullRow dp.1 dp.2) else none)

/-- `get_all_organizations`: `SELECT DISTINCT VALUE c.organization`
(every document carries an organization, so `IS_DEFINED` always holds),
then Python `sorted(...)`. -/
def get_all_organizations (container : Container) : List String :=
  match container.failing with
  | some _ => []
  | none =>
    insertionSortB (fun a b => strLe a b)
      ((container.docs.map Document.organization).dedup)

/-- The dictionary returned by `get_permit_statistics`.  `by_type` and
`by_organization` are the `GROUP BY` results as association lists (group
key, count), in first-occurrence order; `generated_at` is `none` and
`error` is `some` message exactly on the exception path. -/
structure PermitStatistics where
  total_permits : Int
  expired_count : Int
  active_count : Int
  by_type : List (String × Int)
  by_organization : List (String × Int)
  generated_at : Option String
  error : Option String
deriving Repr, DecidableEq

/-- Add one occurrence of `k` to a `GROUP BY` accumulator. -/
def bumpKey : List (String × Int) → String → List (String × Int)
  | [], k => [(k, 1)]
  | (k', n) :: rest, k =>
    if k' = k then (k', n + 1) :: rest else (k', n) :: bumpKey rest k

/-- `SELECT key, COUNT(1) ... GROUP BY key`: occurrence counts of the
keys, grouped. -/
def groupCount (l : List String) : List (String × Int) :=
  l.foldl bumpKey []

/-- `WHERE p.expirationDate < @currentDate AND c.permitType = 'PLO'` of
the expired-count aggregate in `get_permit_statistics`. -/
def statExpiredCond (currentDate : String) (d : Document) (p : PermitEntry) : Bool :=
  (match p.expirationDate with
   | none => false
   | some e => strLt e currentDate) &&
  d.permitType == "PLO"

/-- `get_permit_statistics`: four sequential queries — total permit-entry
count (`JOIN p IN c.permits`), expired count (`JOIN`, PLO and past
expiration), counts of **documents** grouped by `permitType` (no `JOIN`),
and counts of documents grouped by `organization` (no `JOIN`).
`nowIso` stands for `datetime.now().isoformat()`.  On a gateway
exception, a zero-valued dictionary carrying the error message is
returned. -/
def get_permit_statistics (today : Date) (nowIso : String)
    (container : Container) : PermitStatistics :=
  let current_date := today.toYMD
  match container.failing with
  | some e =>
    { total_permits := 0, expired_count := 0, active_count := 0,
      by_type := [], by_organization := [],
      generated_at := none, error := some e }
  | none =>
    let total_count : Int := (joinPairs container.docs).length
    let expired_count : Int :=
      ((joinPairs container.docs).filter (fun dp =>
        statExpiredCond current_date dp.1 dp.2)).length
    { total_permits := total_count, expired_count := expired_count,
      active_count := total_count - expired_count,
      by_type := groupCount (container.docs.map Document.permitType),
      by_organization := groupCount (container.docs.map Document.organization),
      generated_at := some nowIso, error := none }

/-! ## Tool surface (`backend/permit/tools.py`) -/

/-- `get_time_difference`: parse both `YYYY-MM-DD` strings with
`strptime` and return the signed day delta `(target - now).days`; a
`ValueError` from either parse is caught and yields `0`. -/
def get_time_difference (now_datetime target_datetime : String) : Int :=
  match parseDate now_datetime, parseDate target_datetime with
  | some now, some target => target.toDayNumber - now.toDayNumber
  | _, _ => 0

/-- The `f"Expired {abs(days_diff)} days ago"` phrase. -/
def expiredMsg (n : Nat) : String := s!"Expired {n} days ago"

/-- The `f"Expires in {days_diff} days"` phrase. -/
def expiresMsg (d : Int) : String := s!"Expires in {d} days"

/-- `days_diff = (expiry_date - current_date).days` of `get_permit_details`:
`expiry_date` is a midnight datetime, so when the current clock is
strictly past midnight the floor of the difference loses one day. -/
def daysDiff (nowDay : Int) (nowPastMidnight : Bool) (ed : Date) : Int :=
  ed.toDayNumber - nowDay - (if nowPastMidnight then 1 else 0)

/-- Status derivation of `get_permit_details` (tools.py, the block from
`expiry = permit.get('expirationDate')` to the `Status:` rendering).
`nowDay` is the day number of `datetime.now()` and `nowPastMidnight`
tells whether the clock is strictly past midnight, so that
`(expiry_date - current_date).days` is `daysDiff`.  Returns the
`(status, days_info)` pair, or the `ValueError` message when `strptime`
fails on a truthy but malformed expiration date (that error is caught by
the tool's outer `except`, outside this block). -/
def permitStatusInfo (nowDay : Int) (nowPastMidnight : Bool) :
    Option String → Except String (String × String)
  | none => .ok ("Active", "")
  | some e =>
    if e = "" then .ok ("Active", "")
    else
      match parseDate e with
      | none => .error "ValueError"
      | some ed =>
        if daysDiff nowDay nowPastMidnight ed < 0 then
          .ok ("Expired", expiredMsg (daysDiff nowDay nowPastMidnight ed).natAbs)
        else if daysDiff nowDay nowPastMidnight ed ≤ 30 then
          .ok ("Expiring Soon", expiresMsg (daysDiff nowDay nowPastMidnight ed))
        else
          .ok ("Active", expiresMsg (daysDiff nowDay nowPastMidnight ed))

/-! ## Helper lemmas -/

lemma mem_orderedInsertB {α : Type} {le : α → α → Bool} {a x : α} {l : List α} :
    x ∈ orderedInsertB le a l ↔ x = a ∨ x ∈ l := by
  induction l with
  | nil => simp [orderedInsertB]
  | cons b l ih =>
    by_cases h : le a b
    · simp [orderedInsertB, h]
    · simp only [orderedInsertB, if_neg h, List.mem_cons, ih]
      tauto

lemma mem_insertionSortB {α : Type} {le : α → α → Bool} {x : α} {l : List α} :
    x ∈ insertionSortB le l ↔ x ∈ l := by
  induction l with
  | nil => simp [insertionSortB]
  | cons b l ih => simp [insertionSortB, mem_orderedInsertB, ih]

/-- Membership is invariant under the Python `list.sort` step. -/
lemma mem_sortRows {key : Row → String} {order_by : String} {items : List Row} {r : Row} :
    r ∈ sortRows key order_by items ↔ r ∈ items := by
  unfold sortRows
  split <;> exact mem_insertionSortB

/-- The executable comparison agrees with the string order. -/
lemma strLe_iff {a b : String} : strLe a b = true ↔ a ≤ b := by
  rw [String.le_iff_toList_le]
  simp [strLe, String.toList]

/-- The executable strict comparison agrees with the string order. -/
lemma strLt_iff {a b : String} : strLt a b = true ↔ a < b := by
  rw [String.lt_iff_toList_lt]
  simp [strLt, String.toList]

lemma pairwise_orderedInsertB {α : Type} {le : α → α → Bool}
    (htot : ∀ a b, le a b || le b a)
    (htrans : ∀ a b c, le a b = true → le b c = true → le a c = true)
    (a : α) {l : List α} (h : List.Pairwise (fun x y => le x y = true) l) :
    List.Pairwise (fun x y => le x y = true) (orderedInsertB le a l) := by
  induction l with
  | nil => simp [orderedInsertB]
  | cons b l ih =>
    rw [List.pairwise_cons] at h
    obtain ⟨hb, hl⟩ := h
    by_cases hab : le a b
    · simp only [orderedInsertB, if_pos hab]
      rw [List.pairwise_cons]
      refine ⟨?_, List.pairwise_cons.mpr ⟨hb, hl⟩⟩
      intro x hx
      rcases List.mem_cons.mp hx with rfl | hx
      · exact hab
      · exact htrans a b x hab (hb x hx)
    · simp only [orderedInsertB, if_neg hab]
      rw [List.pairwise_cons]
      refine ⟨?_, ih hl⟩
      intro x hx
      rw [mem_orderedInsertB] at hx
      rcases hx with hxa | hx
      · have hor := htot a b
        rw [Bool.or_eq_true] at hor
        rw [hxa]
        exact hor.resolve_left (by simpa using hab)
      · exact hb x hx

lemma pairwise_insertionSortB {α : Type} {le : α → α → Bool}
    (htot : ∀ a b, le a b || le b a)
    (htrans : ∀ a b c, le a b = true → le b c = true → le a c = true)
    (l : List α) :
    List.Pairwise (fun x y => le x y = true) (insertionSortB le l) := by
  induction l with
  | nil => exact List.Pairwise.nil
  | cons b l ih => exact pairwise_orderedInsertB htot htrans b ih

lemma strLe_total (a b : String) : strLe a b || strLe b a := by
  rw [Bool.or_eq_true, strLe_iff, strLe_iff]
  exact (le_total a b).imp id id

lemma strLe_trans (a b c : String) :
    strLe a b = true → strLe b c = true → strLe a c = true := by
  rw [strLe_iff, strLe_iff, strLe_iff]
  exact le_trans

/-- `items.sort(key, reverse=True)` (the `'latest'` branch) yields a
non-increasing key sequence. -/
lemma pairwise_sortRows_latest (key : Row → String) (items : List Row) :
    List.Pairwise (fun a b => key b ≤ key a) (sortRows key "latest" items) := by
  have h := @pairwise_insertionSortB Row (fun a b => strLe (key b) (key a))
    (fun a b => strLe_total (key b) (key a))
    (fun a b c hab hbc => strLe_trans (key c) (key b) (key a) hbc hab) items
  have heq : sortRows key "latest" items
      = insertionSortB (fun a b => strLe (key b) (key a)) items := by
    unfold sortRows
    simp
  rw [heq]
  exact h.imp (fun hab => strLe_iff.mp hab)

/-- `items.sort(key)` (the non-`'latest'` branch, here `'earliest'`)
yields a non-decreasing key sequence. -/
lemma pairwise_sortRows_earliest (key : Row → String) (items : List Row) :
    List.Pairwise (fun a b => key a ≤ key b) (sortRows key "earliest" items) := by
  have h := @pairwise_insertionSortB Row (fun a b => strLe (key a) (key b))
    (fun a b => strLe_total (key a) (key b))
    (fun a b c hab hbc => strLe_trans (key a) (key b) (key c) hab hbc) items
  have heq : sortRows key "earliest" items
      = insertionSortB (fun a b => strLe (key a) (key b)) items := by
    unfold sortRows
    simp
  rw [heq]
  exact h.imp (fun hab => strLe_iff.mp hab)

/-- Filtering-then-projecting form of the query bodies. -/
lemma filterMap_if_eq_map_filter {α β : Type} (P : α → Bool) (f : α → β) (l : List α) :
    (l.filterMap (fun a => if P a then some (f a) else none)) = (l.filter P).map f := by
  induction l with
  | nil => rfl
  | cons a l ih =>
    by_cases h : P a <;> simp [List.filterMap_cons, List.filter_cons, h, ih]

/-- Sum of the counts in a `GROUP BY` result. -/
def sumCounts (l : List (String × Int)) : Int :=
  (l.map Prod.snd).sum

lemma sumCounts_bumpKey (acc : List (String × Int)) (k : String) :
    sumCounts (bumpKey acc k) = sumCounts acc + 1 := by
  induction acc with
  | nil => rfl
  | cons p rest ih =>
    obtain ⟨k', n⟩ := p
    by_cases h : k' = k <;> simp [bumpKey, h, sumCounts, List.sum_cons] at ih ⊢ <;> omega

lemma sumCounts_foldl (l : List String) (acc : List (String × Int)) :
    sumCounts (l.foldl bumpKey acc) = sumCounts acc + l.length := by
  induction l generalizing acc with
  | nil => simp [sumCounts]
  | cons k l ih =>
    simp only [List.foldl_cons, List.length_cons, ih, sumCounts_bumpKey]
    omega

/-- The counts of a `GROUP BY` over a key list sum to the list's length. -/
lemma sumCounts_groupCount (l : List String) :
    sumCounts (groupCount l) = l.length := by
  simpa [sumCounts] using sumCounts_foldl l []

/-! ## Claims -/

/-- C2: for every Query Builder operation and every input, an exception
raised by the record-store gateway during query execution (`failing =
some e`) is caught and converted to an empty list — or `none` for the
by-number lookup, a zeroed statistics dictionary carrying the error for
`get_permit_statistics` — and never propagates to the caller (each
embedded operation is a total function). -/
theorem C2_failure_semantics (e : String) (docs : List Document)
    (permit_type : Option String) (year : Option Int) (organization : Option String)
    (operator : Option String) (order_by : String) (today : Date) (days : Int)
    (permit_number installation : Option String) (nowIso : String) :
    query_documents_by_issue_year ⟨docs, some e⟩ permit_type year organization operator order_by = [] ∧
    query_documents_by_expiration_year ⟨docs, some e⟩ permit_type year organization operator order_by = [] ∧
    query_expired_documents today ⟨docs, some e⟩ organization order_by = [] ∧
    query_documents_expiring_soon today ⟨docs, some e⟩ days organization order_by = [] ∧
    query_permit_by_number ⟨docs, some e⟩ permit_number = none ∧
    query_permits_by_installation ⟨docs, some e⟩ installation permit_type = [] ∧
    get_all_organizations ⟨docs, some e⟩ = [] ∧
    get_permit_statistics today nowIso ⟨docs, some e⟩ =
      { total_permits := 0, expired_count := 0, active_count := 0,
        by_type := [], by_organization := [], generated_at := none, error := some e } := by
  refine ⟨rfl, rfl, rfl, rfl, ?_, ?_, rfl, rfl⟩
  · cases hpn : strTruthy permit_number <;> simp [query_permit_by_number, hpn]
  · cases hin : strTruthy installation <;> simp [query_permits_by_installation, hin]

/-- C6: for the issue-year, expiration-year, expired and expiring-soon
queries, `order_by = 'latest'` yields a result whose relevant date key
(`issueDate` resp. `expirationDate`, defaulting to `""` when missing) is
non-increasing, and `order_by = 'earliest'` yields a non-decreasing one. -/
theorem C6_sort_order (c : Container) (permit_type : Option String) (year : Option Int)
    (organization operator : Option String) (today : Date) (days : Int) :
    List.Pairwise (fun a b => Row.issueKey b ≤ Row.issueKey a)
      (query_documents_by_issue_year c permit_type year organization operator "latest") ∧
    List.Pairwise (fun a b => Row.issueKey a ≤ Row.issueKey b)
      (query_documents_by_issue_year c permit_type year organization operator "earliest") ∧
    List.Pairwise (fun a b => Row.expKey b ≤ Row.expKey a)
      (query_documents_by_expiration_year c permit_type year organization operator "latest") ∧
    List.Pairwise (fun a b => Row.expKey a ≤ Row.expKey b)
      (query_documents_by_expiration_year c permit_type year organization operator "earliest") ∧
    List.Pairwise (fun a b => Row.expKey b ≤ Row.expKey a)
      (query_expired_documents today c organization "latest") ∧
    List.Pairwise (fun a b => Row.expKey a ≤ Row.expKey b)
      (query_expired_documents today c organization "earliest") ∧
    List.Pairwise (fun a b => Row.expKey b ≤ Row.expKey a)
      (query_documents_expiring_soon today c days organization "latest") ∧
    List.Pairwise (fun a b => Row.expKey a ≤ Row.expKey b)
      (query_documents_expiring_soon today c days organization "earliest") := by
  cases hf : c.failing with
  | some e =>
    refine ⟨?_, ?_, ?_, ?_, ?_, ?_, ?_, ?_⟩ <;>
      simp [query_documents_by_issue_year, query_documents_by_expiration_year,
        query_expired_documents, query_documents_expiring_soon, hf]
  | none =>
    refine ⟨?_, ?_, ?_, ?_, ?_, ?_, ?_, ?_⟩ <;>
      simp only [query_documents_by_issue_year, query_documents_by_expiration_year,
        query_expired_documents, query_documents_expiring_soon, hf]
    · exact pairwise_sortRows_latest _ _
    · exact pairwise_sortRows_earliest _ _
    · exact pairwise_sortRows_latest _ _
    · exact pairwise_sortRows_earliest _ _
    · exact pairwise_sortRows_latest _ _
    · exact pairwise_sortRows_earliest _ _
    · exact pairwise_sortRows_latest _ _
    · exact pairwise_sortRows_earliest _ _

/-- A container holding one document that bundles two permit entries:
`total_permits` counts the entries through the `JOIN` (2), while the
`by_type` aggregate groups top-level documents without a `JOIN` (1 for
`PLO`), so the two disagree. -/
def c1ex : Container :=
  ⟨[{ documentTitle := "D", permitType := "PLO", organization := "ORG", filepath := "",
      permits := [{ permitNumber := "n1" }, { permitNumber := "n2" }] }], none⟩

/-- C1 (counterexample): on a database whose single document bundles two
permit entries, `sum(by_type.values()) = 1` but `total_permits = 2`, so
the claimed identity `sum(by_type) = total_permits` fails. -/
theorem C1_counterexample :
    (get_permit_statistics ⟨2025, 10, 12⟩ "2025-10-12T00:00:00" c1ex).by_type = [("PLO", 1)] ∧
    (get_permit_statistics ⟨2025, 10, 12⟩ "2025-10-12T00:00:00" c1ex).total_permits = 2 ∧
    sumCounts (get_permit_statistics ⟨2025, 10, 12⟩ "2025-10-12T00:00:00" c1ex).by_type ≠
      (get_permit_statistics ⟨2025, 10, 12⟩ "2025-10-12T00:00:00" c1ex).total_permits := by
  refine ⟨by decide, by decide, by decide⟩

/-- C1 (amended): `active_count = total_permits - expired_count` holds for
every database state (on both the success and the exception path), and
the `by_type` (and `by_organization`) counts sum to the number of
top-level documents — which equals `total_permits` only when every
document carries exactly one permit entry. -/
theorem C1_stats_identity (today : Date) (nowIso : String) (c : Container) :
    (get_permit_statistics today nowIso c).active_count =
      (get_permit_statistics today nowIso c).total_permits -
      (get_permit_statistics today nowIso c).expired_count ∧
    (c.failing = none →
      sumCounts (get_permit_statistics today nowIso c).by_type = (c.docs.length : Int) ∧
      sumCounts (get_permit_statistics today nowIso c).by_organization = (c.docs.length : Int)) := by
  cases hf : c.failing with
  | some e => simp [get_permit_statistics, hf, sumCounts]
  | none =>
    refine ⟨?_, fun _ => ⟨?_, ?_⟩⟩ <;>
      simp [get_permit_statistics, hf, sumCounts_groupCount]

/-- Witness for C1 (amended) at the two-entry container. -/
theorem C1_stats_identity_witness :
    (get_permit_statistics ⟨2025, 10, 12⟩ "t" c1ex).active_count =
      (get_permit_statistics ⟨2025, 10, 12⟩ "t" c1ex).total_permits -
      (get_permit_statistics ⟨2025, 10, 12⟩ "t" c1ex).expired_count ∧
    sumCounts (get_permit_statistics ⟨2025, 10, 12⟩ "t" c1ex).by_type = 1 := by
  have h := C1_stats_identity ⟨2025, 10, 12⟩ "t" c1ex
  refine ⟨h.1, ?_⟩
  have h2 := (h.2 rfl).1
  simpa [c1ex] using h2

/-- C5: the expired query never returns an entry whose `expirationDate`
is missing or `≥ currentDate` (the comparison is strictly `<`), and never
one from a document whose `permitType` is not `'PLO'`; `currentDate` is
the single `YYYY-MM-DD` rendering of the call's date. -/
theorem C5_expired_strict (today : Date) (c : Container) (organization : Option String)
    (order_by : String) (r : Row)
    (hr : r ∈ query_expired_documents today c organization order_by) :
    r.permitType = some "PLO" ∧ ∃ e, r.expirationDate = some e ∧ e < today.toYMD := by
  unfold query_expired_documents at hr
  cases hf : c.failing with
  | some err => simp [hf] at hr
  | none =>
    simp only [hf, mem_sortRows, List.mem_filterMap] at hr
    obtain ⟨⟨d, p⟩, _, hdp⟩ := hr
    by_cases hc : expiredCond today.toYMD organization d p
    · rw [if_pos hc] at hdp
      obtain rfl : expiryRow d p = r := by injection hdp
      unfold expiredCond at hc
      simp only [Bool.and_eq_true, beq_iff_eq] at hc
      obtain ⟨⟨hdate, hplo⟩, _⟩ := hc
      cases hpe : p.expirationDate with
      | none => rw [hpe] at hdate; exact absurd hdate (by simp)
      | some e =>
        rw [hpe] at hdate
        exact ⟨by simp [expiryRow, hplo], e, by simp [expiryRow, hpe], strLt_iff.mp hdate⟩
    · rw [if_neg hc] at hdp
      exact absurd hdp (by simp)

/-- The expired PLO entry and document of the C5 witness. -/
def e5w : PermitEntry := { permitNumber := "x", expirationDate := some "2024-01-01" }

/-- The document of the C5 witness. -/
def d5w : Document :=
  { documentTitle := "D", permitType := "PLO", organization := "KPI", filepath := "",
    permits := [e5w] }

/-- Witness for C5: a concrete expired PLO row is in the result and
satisfies the strict bound. -/
theorem C5_expired_strict_witness :
    (expiryRow d5w e5w).permitType = some "PLO" ∧
    ∃ e, (expiryRow d5w e5w).expirationDate = some e ∧ e < Date.toYMD ⟨2025, 10, 12⟩ :=
  C5_expired_strict ⟨2025, 10, 12⟩ ⟨[d5w], none⟩ none "latest" (expiryRow d5w e5w) (by decide)

/-- C4: `query_documents_expiring_soon` returns exactly the PLO rows
whose `expirationDate` lies in the inclusive window
`[currentDate, currentDate + days]` (both boundary dates included), with
`currentDate` rendered once per call in `YYYY-MM-DD` form; its default
sort order is `'earliest'`, unlike the issue-year, expiration-year and
expired shapes whose default is `'latest'`. -/
theorem C4_expiring_soon_window (today : Date) (c : Container) (D : Int)
    (org : Option String) (ob : String)
    (pt : Option String) (y : Option Int) (op : Option String)
    (hf : c.failing = none) :
    (∀ r, r ∈ query_documents_expiring_soon today c D org ob →
      r.permitType = some "PLO" ∧
      ∃ e, r.expirationDate = some e ∧ today.toYMD ≤ e ∧ e ≤ (today.addDays D).toYMD) ∧
    (∀ d p e, (d, p) ∈ joinPairs c.docs → d.permitType = "PLO" →
      (!strTruthy org || d.organization == org.getD "") = true →
      p.expirationDate = some e → today.toYMD ≤ e → e ≤ (today.addDays D).toYMD →
      expiryRow d p ∈ query_documents_expiring_soon today c D org ob) ∧
    query_documents_expiring_soon today c D org
      = query_documents_expiring_soon today c D org "earliest" ∧
    query_documents_by_issue_year c pt y org op
      = query_documents_by_issue_year c pt y org op "latest" ∧
    query_documents_by_expiration_year c pt y org op
      = query_documents_by_expiration_year c pt y org op "latest" ∧
    query_expired_documents today c org
      = query_expired_documents today c org "latest" := by
  refine ⟨?_, ?_, rfl, rfl, rfl, rfl⟩
  · intro r hr
    unfold query_documents_expiring_soon at hr
    simp only [hf, mem_sortRows, List.mem_filterMap] at hr
    obtain ⟨⟨d, p⟩, _, hdp⟩ := hr
    by_cases hc : expiringCond today.toYMD (today.addDays D).toYMD org d p
    · rw [if_pos hc] at hdp
      obtain rfl : expiryRow d p = r := by injection hdp
      unfold expiringCond at hc
      simp only [Bool.and_eq_true, beq_iff_eq] at hc
      obtain ⟨⟨hdate, hplo⟩, _⟩ := hc
      cases hpe : p.expirationDate with
      | none => rw [hpe] at hdate; exact absurd hdate (by simp)
      | some e =>
        rw [hpe] at hdate
        rw [Bool.and_eq_true] at hdate
        exact ⟨by simp [expiryRow, hplo], e, by simp [expiryRow, hpe],
          strLe_iff.mp hdate.1, strLe_iff.mp hdate.2⟩
    · rw [if_neg hc] at hdp
      exact absurd hdp (by simp)
  · intro d p e hmem hplo horg hpe hlo hhi
    unfold query_documents_expiring_soon
    simp only [hf, mem_sortRows, List.mem_filterMap]
    refine ⟨(d, p), hmem, ?_⟩
    have hc : expiringCond today.toYMD (today.addDays D).toYMD org d p = true := by
      unfold expiringCond
      rw [hpe]
      simp only [Bool.and_eq_true, beq_iff_eq]
      exact ⟨⟨⟨strLe_iff.mpr hlo, strLe_iff.mpr hhi⟩, hplo⟩, horg⟩
    rw [if_pos hc]

/-- Boundary entry of the C4 witness: expires on the call date itself. -/
def e4lo : PermitEntry := { permitNumber := "a", expirationDate := some "2025-10-12" }

/-- Boundary entry of the C4 witness: expires on `currentDate + 30`. -/
def e4hi : PermitEntry := { permitNumber := "b", expirationDate := some "2025-11-11" }

/-- Document of the C4 witness. -/
def d4w : Document :=
  { documentTitle := "D", permitType := "PLO", organization := "SHU", filepath := "",
    permits := [e4lo, e4hi] }

/-- Witness for C4: with `today = 2025-10-12` and `days = 30`, the rows
expiring exactly on `currentDate` and exactly on `currentDate + 30 days`
are both returned (boundaries included). -/
theorem C4_expiring_soon_window_witness :
    expiryRow d4w e4lo ∈
      query_documents_expiring_soon ⟨2025, 10, 12⟩ ⟨[d4w], none⟩ 30 none "earliest" ∧
    expiryRow d4w e4hi ∈
      query_documents_expiring_soon ⟨2025, 10, 12⟩ ⟨[d4w], none⟩ 30 none "earliest" := by
  have h := C4_expiring_soon_window ⟨2025, 10, 12⟩ ⟨[d4w], none⟩ 30 none "earliest"
    none none none rfl
  constructor
  · exact h.2.1 d4w e4lo "2025-10-12" (by decide) rfl rfl rfl
      (by rw [String.le_iff_toList_le]; decide)
      (by rw [String.le_iff_toList_le]; decide)
  · exact h.2.1 d4w e4hi "2025-11-11" (by decide) rfl rfl rfl
      (by rw [String.le_iff_toList_le]; decide)
      (by rw [String.le_iff_toList_le]; decide)

/-- An optional equality filter holds iff it constrains only when the
argument is truthy. -/
lemma optFilter_iff {o : Option String} {a : String} :
    (!strTruthy o || a == o.getD "") = true ↔ (strTruthy o = true → a = o.getD "") := by
  cases h : strTruthy o <;> simp [h]

/-- Extract the year-operator facts from a satisfied issue-year /
expiration-year `WHERE` clause; the `permit_type` condition constrains
the row only when the argument is truthy (specified). -/
lemma yearCond_extract {pt : Option String} {y : Int} {org : Option String} {op : String}
    {dateField : Option String} {d : Document}
    (hy : y ≠ 0) (hopne : op ≠ "")
    (hc : ((!strTruthy pt || d.permitType == pt.getD "") &&
           (!(strTruthy (some op) && intTruthy (some y)) ||
             yearSat ((some op).getD "") dateField ((some y).getD 0)) &&
           (!strTruthy org || d.organization == org.getD "")) = true) :
    (strTruthy pt = true → d.permitType = pt.getD "") ∧
    ∃ s dy, dateField = some s ∧ yearOfStr s = some dy ∧
      (op = "equal" → dy = y) ∧ (op = "greater" → y ≤ dy) ∧ (op = "less" → dy ≤ y) := by
  rw [Bool.and_eq_true, Bool.and_eq_true] at hc
  obtain ⟨⟨hA, hB⟩, _⟩ := hc
  have hstr : strTruthy (some op) = true := decide_eq_true hopne
  have hint : intTruthy (some y) = true := decide_eq_true hy
  rw [hstr, hint, Bool.and_self, Bool.not_true, Bool.false_or, Option.getD_some,
    Option.getD_some] at hB
  refine ⟨optFilter_iff.mp hA, ?_⟩
  cases hdf : dateField with
  | none => rw [hdf] at hB; simp [yearSat] at hB
  | some sv =>
    rw [hdf] at hB
    cases hys : yearOfStr sv with
    | none => simp [yearSat, hys] at hB
    | some dy =>
      have hB2 : (if op = "greater" then decide (y ≤ dy)
          else if op = "less" then decide (dy ≤ y) else decide (dy = y)) = true := by
        simpa [yearSat, hys] using hB
      refine ⟨sv, dy, rfl, hys, ?_, ?_, ?_⟩ <;>
        (intro h; rw [h] at hB2; simpa using hB2)

/-- C3: for every valid `(permit_type, year, operator)` combination —
`permit_type` specified or not — the issue-year query returns only rows
whose `issueDate` year satisfies the operator relative to `year`
(`equal` → `=`, `greater` → `>=` inclusive, `less` → `<=` inclusive),
and, when `permit_type` is specified (truthy), only rows of that
`permit_type`; the same operator semantics hold for the expiration-year
query applied to `expirationDate`.  (`year = 0` is excluded: Python
truthiness would skip the year condition for it.) -/
theorem C3_year_operator_semantics (c : Container) (pt : Option String) (y : Int)
    (org : Option String) (op : String) (ob : String) (r : Row)
    (hy : y ≠ 0)
    (hop : op = "equal" ∨ op = "greater" ∨ op = "less") :
    (r ∈ query_documents_by_issue_year c pt (some y) org (some op) ob →
      (strTruthy pt = true → r.permitType = some (pt.getD "")) ∧
      ∃ s dy, r.issueDate = some s ∧ yearOfStr s = some dy ∧
        (op = "equal" → dy = y) ∧ (op = "greater" → y ≤ dy) ∧ (op = "less" → dy ≤ y)) ∧
    (r ∈ query_documents_by_expiration_year c pt (some y) org (some op) ob →
      (strTruthy pt = true → r.permitType = some (pt.getD "")) ∧
      ∃ s dy, r.expirationDate = some s ∧ yearOfStr s = some dy ∧
        (op = "equal" → dy = y) ∧ (op = "greater" → y ≤ dy) ∧ (op = "less" → dy ≤ y)) := by
  have hopne : op ≠ "" := by
    rcases hop with rfl | rfl | rfl <;> decide
  constructor
  · intro hr
    unfold query_documents_by_issue_year at hr
    cases hf : c.failing with
    | some err => simp [hf] at hr
    | none =>
      simp only [hf, mem_sortRows, List.mem_filterMap] at hr
      obtain ⟨⟨d, p⟩, _, hdp⟩ := hr
      by_cases hc : issueYearCond pt (some y) org (some op) d p
      · rw [if_pos hc] at hdp
        obtain rfl : issueYearRow d p = r := by injection hdp
        unfold issueYearCond at hc
        obtain ⟨hA, s, dy, hs, hys, h1, h2, h3⟩ := yearCond_extract hy hopne hc
        exact ⟨fun hspec => by simp [issueYearRow, hA hspec], s, dy,
          by simp [issueYearRow, hs], hys, h1, h2, h3⟩
      · rw [if_neg hc] at hdp
        exact absurd hdp (by simp)
  · intro hr
    unfold query_documents_by_expiration_year at hr
    cases hf : c.failing with
    | some err => simp [hf] at hr
    | none =>
      simp only [hf, mem_sortRows, List.mem_filterMap] at hr
      obtain ⟨⟨d, p⟩, _, hdp⟩ := hr
      by_cases hc : expYearCond pt (some y) org (some op) d p
      · rw [if_pos hc] at hdp
        obtain rfl : expYearRow d p = r := by injection hdp
        unfold expYearCond at hc
        obtain ⟨hA, s, dy, hs, hys, h1, h2, h3⟩ := yearCond_extract hy hopne hc
        exact ⟨fun hspec => by simp [expYearRow, hA hspec], s, dy,
          by simp [expYearRow, hs], hys, h1, h2, h3⟩
      · rw [if_neg hc] at hdp
        exact absurd hdp (by simp)

/-- Entry of the C3 witness. -/
def e3w : PermitEntry :=
  { permitNumber := "p", issueDate := some "2024-05-01", expirationDate := some "2026-03-04" }

/-- Document of the C3 witness. -/
def d3w : Document :=
  { documentTitle := "T", permitType := "PLO", organization := "PPN", filepath := "",
    permits := [e3w] }

/-- Untyped-document entry and document for the unspecified-`permit_type`
half of the C3 witness. -/
def e3n : PermitEntry := { permitNumber := "k", issueDate := some "2024-09-09" }

/-- Document (non-PLO) of the unspecified-`permit_type` C3 witness. -/
def d3n : Document :=
  { documentTitle := "U", permitType := "KKPR/KKPRL", organization := "PGN", filepath := "",
    permits := [e3n] }

/-- Witness for C3 at `year = 2024`, `operator = equal`: once with
`permit_type = PLO` specified and once with `permit_type` unspecified
(`None`) on a non-PLO document. -/
theorem C3_year_operator_semantics_witness :
    ((strTruthy (some "PLO") = true → (issueYearRow d3w e3w).permitType
        = some ((some "PLO").getD "")) ∧
      ∃ s dy, (issueYearRow d3w e3w).issueDate = some s ∧ yearOfStr s = some dy ∧
        ("equal" = "equal" → dy = (2024 : Int)) ∧
        ("equal" = "greater" → (2024 : Int) ≤ dy) ∧
        ("equal" = "less" → dy ≤ (2024 : Int))) ∧
    ((strTruthy (none : Option String) = true → (issueYearRow d3n e3n).permitType
        = some ((none : Option String).getD "")) ∧
      ∃ s dy, (issueYearRow d3n e3n).issueDate = some s ∧ yearOfStr s = some dy ∧
        ("equal" = "equal" → dy = (2024 : Int)) ∧
        ("equal" = "greater" → (2024 : Int) ≤ dy) ∧
        ("equal" = "less" → dy ≤ (2024 : Int))) :=
  ⟨(C3_year_operator_semantics ⟨[d3w], none⟩ (some "PLO") 2024 none "equal" "latest"
      (issueYearRow d3w e3w) (by decide) (Or.inl rfl)).1 (by decide),
    (C3_year_operator_semantics ⟨[d3n], none⟩ none 2024 none "equal" "latest"
      (issueYearRow d3n e3n) (by decide) (Or.inl rfl)).1 (by decide)⟩

/-- C7: `query_permit_by_number` with a falsy (empty or missing) permit
number short-circuits to `None` for every container — including a failing
gateway, showing no upstream query is consulted; with a permit number
matching no entry it returns `None` (an explicit not-found indicator,
never a raised error and never a list); with a match it returns the first
matching record. -/
theorem C7_permit_by_number (c : Container) (pn : Option String) :
    (strTruthy pn = false → query_permit_by_number c pn = none) ∧
    (c.failing = none → ∀ pnv, pn = some pnv → pnv ≠ "" →
      (((joinPairs c.docs).filter (fun dp => dp.2.permitNumber == pnv)) = [] →
        query_permit_by_number c pn = none) ∧
      (∀ d p rest,
        (joinPairs c.docs).filter (fun dp => dp.2.permitNumber == pnv) = (d, p) :: rest →
        query_permit_by_number c pn = some (fullRow d p))) := by
  constructor
  · intro h
    simp [query_permit_by_number, h]
  · rintro hf pnv rfl hne
    have ht : strTruthy (some pnv) = true := decide_eq_true hne
    have hbody : query_permit_by_number c (some pnv)
        = (((joinPairs c.docs).filter (fun dp => dp.2.permitNumber == pnv)).map
            (fun dp => fullRow dp.1 dp.2)).head? := by
      unfold query_permit_by_number
      rw [ht, hf]
      simp only [Bool.not_true, Bool.false_eq_true, if_false, Option.getD_some]
      rw [filterMap_if_eq_map_filter
        (fun dp : Document × PermitEntry => dp.2.permitNumber == pnv)
        (fun dp : Document × PermitEntry => fullRow dp.1 dp.2)]
    refine ⟨?_, ?_⟩
    · intro hnil
      rw [hbody, hnil]
      rfl
    · intro d p rest hcons
      rw [hbody, hcons]
      rfl

/-- Entry of the C7 witness. -/
def e7w : PermitEntry := { permitNumber := "PLO-1", issueDate := some "2024-05-01" }

/-- Document of the C7 witness. -/
def d7w : Document :=
  { documentTitle := "T", permitType := "PLO", organization := "PPN", filepath := "",
    permits := [e7w] }

/-- Witness for C7: empty number short-circuits, a non-existent number
yields `None`, an existing number yields its first record. -/
theorem C7_permit_by_number_witness :
    query_permit_by_number ⟨[d7w], none⟩ (some "") = none ∧
    query_permit_by_number ⟨[d7w], none⟩ (some "NOPE") = none ∧
    query_permit_by_number ⟨[d7w], none⟩ (some "PLO-1") = some (fullRow d7w e7w) := by
  refine ⟨?_, ?_, ?_⟩
  · exact (C7_permit_by_number ⟨[d7w], none⟩ (some "")).1 (by decide)
  · exact ((C7_permit_by_number ⟨[d7w], none⟩ (some "NOPE")).2 rfl "NOPE" rfl
      (by decide)).1 (by decide)
  · exact ((C7_permit_by_number ⟨[d7w], none⟩ (some "PLO-1")).2 rfl "PLO-1" rfl
      (by decide)).2 d7w e7w [] (by decide)

/-- C8: `get_time_difference("2025-11-20", "2026-01-05")` is exactly
`46`, and whenever either argument is not a valid `YYYY-MM-DD` date
(`strptime` raises), the result is `0` — no exception escapes. -/
theorem C8_time_difference :
    get_time_difference "2025-11-20" "2026-01-05" = 46 ∧
    (∀ s t, parseDate s = none → get_time_difference s t = 0) ∧
    (∀ s t, parseDate t = none → get_time_difference s t = 0) := by
  refine ⟨by decide, ?_, ?_⟩
  · intro s t h
    cases hpt : parseDate t <;> simp [get_time_difference, h, hpt]
  · intro s t h
    cases hps : parseDate s <;> simp [get_time_difference, h, hps]

/-- Witness for C8: a malformed month or a 3-digit year (the `%Y` regex
requires exactly four digits) makes the parse fail and the difference
collapse to `0`, while the space-padded day `strptime` accepts parses
and yields the real delta. -/
theorem C8_time_difference_witness :
    parseDate "2025-13-01" = none ∧
    get_time_difference "2025-13-01" "2026-01-05" = 0 ∧
    get_time_difference "2025-11-20" "not-a-date" = 0 ∧
    parseDate "999-01-05" = none ∧
    get_time_difference "999-01-05" "2026-01-05" = 0 ∧
    parseDate "2025-11- 1" = some ⟨2025, 11, 1⟩ ∧
    get_time_difference "2025-11- 1" "2026-01-05" = 65 := by
  refine ⟨by decide, ?_, ?_, by decide, ?_, by decide, by decide⟩
  · exact C8_time_difference.2.1 "2025-13-01" "2026-01-05" (by decide)
  · exact C8_time_difference.2.2 "2025-11-20" "not-a-date" (by decide)
  · exact C8_time_difference.2.1 "999-01-05" "2026-01-05" (by decide)

/-- C9: `query_permits_by_installation` with a falsy (empty or missing)
installation short-circuits to `[]` for every container (no upstream
query); otherwise a row is returned exactly for the document–entry pairs
whose lowercased `installation` contains the lowercased search string as
a substring, subject to the optional `permit_type` filter. -/
theorem C9_installation_match (c : Container) (inst pt : Option String) :
    (strTruthy inst = false → query_permits_by_installation c inst pt = []) ∧
    (c.failing = none → ∀ iv, inst = some iv → iv ≠ "" → ∀ r,
      (r ∈ query_permits_by_installation c inst pt ↔
        ∃ d p, (d, p) ∈ joinPairs c.docs ∧
          List.IsInfix (iv.data.map Char.toLower) (p.installation.data.map Char.toLower) ∧
          (strTruthy pt = true → d.permitType = pt.getD "") ∧
          r = fullRow d p)) := by
  constructor
  · intro h
    simp [query_permits_by_installation, h]
  · rintro hf iv rfl hne r
    have ht : strTruthy (some iv) = true := decide_eq_true hne
    unfold query_permits_by_installation
    rw [ht, hf]
    simp only [Bool.not_true, Bool.false_eq_true, if_false, Option.getD_some,
      List.mem_filterMap]
    constructor
    · rintro ⟨⟨d, p⟩, hmem, hdp⟩
      by_cases hcond : containsCI p.installation iv &&
          (!strTruthy pt || d.permitType == pt.getD "")
      · rw [if_pos hcond] at hdp
        rw [Bool.and_eq_true] at hcond
        obtain ⟨hci, hptf⟩ := hcond
        refine ⟨d, p, hmem, ?_, optFilter_iff.mp hptf, ?_⟩
        · have := of_decide_eq_true hci
          exact this
        · exact (Option.some.inj hdp).symm
      · rw [if_neg hcond] at hdp
        exact absurd hdp (by simp)
    · rintro ⟨d, p, hmem, hinf, hptf, rfl⟩
      refine ⟨(d, p), hmem, ?_⟩
      have hcond : (containsCI p.installation iv &&
          (!strTruthy pt || d.permitType == pt.getD "")) = true := by
        rw [Bool.and_eq_true]
        exact ⟨decide_eq_true hinf, optFilter_iff.mpr hptf⟩
      rw [if_pos hcond]

/-- Entry of the C9 witness: installation `IT Semarang Refinery`. -/
def e9w : PermitEntry := { permitNumber := "q", installation := "IT Semarang Refinery" }

/-- Document of the C9 witness. -/
def d9w : Document :=
  { documentTitle := "T", permitType := "PLO", organization := "PPN", filepath := "",
    permits := [e9w] }

/-- Witness for C9: searching `"semarang"` matches the entry whose
installation is `"IT Semarang Refinery"`, and an empty installation
short-circuits. -/
theorem C9_installation_match_witness :
    fullRow d9w e9w ∈
      query_permits_by_installation ⟨[d9w], none⟩ (some "semarang") none ∧
    query_permits_by_installation ⟨[d9w], none⟩ (some "") none = [] := by
  constructor
  · exact ((C9_installation_match ⟨[d9w], none⟩ (some "semarang") none).2 rfl
      "semarang" rfl (by decide) (fullRow d9w e9w)).mpr
      ⟨d9w, e9w, by decide, by decide, fun h => absurd h (by decide), rfl⟩
  · exact (C9_installation_match ⟨[d9w], none⟩ (some "") none).1 (by decide)

/-- C10: the status derivation of `get_permit_details` renders status
`Active` with an empty days-remaining phrase whenever the record's
`expirationDate` is absent or empty (the situation of every non-PLO
permit); the derived-status branches — `Expired` for a negative day
delta, `Expiring Soon` for a delta in `[0, 30]`, `Active` with a
days-remaining phrase above `30` — are reached only when a non-empty
`expirationDate` is present and parses. -/
theorem C10_details_status (nowDay : Int) (npm : Bool) :
    permitStatusInfo nowDay npm none = .ok ("Active", "") ∧
    permitStatusInfo nowDay npm (some "") = .ok ("Active", "") ∧
    (∀ e ed, e ≠ "" → parseDate e = some ed →
      (daysDiff nowDay npm ed < 0 →
        ∃ info, permitStatusInfo nowDay npm (some e) = .ok ("Expired", info)) ∧
      (0 ≤ daysDiff nowDay npm ed → daysDiff nowDay npm ed ≤ 30 →
        ∃ info, permitStatusInfo nowDay npm (some e) = .ok ("Expiring Soon", info)) ∧
      (30 < daysDiff nowDay npm ed →
        ∃ info, permitStatusInfo nowDay npm (some e) = .ok ("Active", info))) := by
  refine ⟨rfl, rfl, ?_⟩
  intro e ed hne hp
  have hbody : permitStatusInfo nowDay npm (some e)
      = (if daysDiff nowDay npm ed < 0 then
          Except.ok ("Expired", expiredMsg (daysDiff nowDay npm ed).natAbs)
        else if daysDiff nowDay npm ed ≤ 30 then
          Except.ok ("Expiring Soon", expiresMsg (daysDiff nowDay npm ed))
        else
          Except.ok ("Active", expiresMsg (daysDiff nowDay npm ed))) := by
    simp only [permitStatusInfo]
    rw [if_neg hne, hp]
  refine ⟨?_, ?_, ?_⟩
  · intro hlt
    rw [hbody, if_pos hlt]
    exact ⟨_, rfl⟩
  · intro h0 h30
    rw [hbody, if_neg (not_lt.mpr h0), if_pos h30]
    exact ⟨_, rfl⟩
  · intro hgt
    rw [hbody, if_neg (not_lt.mpr (le_of_lt (lt_trans (by norm_num) hgt))),
      if_neg (not_le.mpr hgt)]
    exact ⟨_, rfl⟩

/-- Witness for C10: with the clock at 2025-10-12 (past midnight), a
permit expiring 2025-10-20 is `Expiring Soon`, one expired 2024-01-01 is
`Expired`, one expiring 2027-01-01 is `Active`; an absent or empty
expiration date gives `Active` with no phrase. -/
theorem C10_details_status_witness :
    permitStatusInfo (Date.toDayNumber ⟨2025, 10, 12⟩) true none = .ok ("Active", "") ∧
    permitStatusInfo (Date.toDayNumber ⟨2025, 10, 12⟩) true (some "") = .ok ("Active", "") ∧
    (∃ info, permitStatusInfo (Date.toDayNumber ⟨2025, 10, 12⟩) true (some "2024-01-01")
      = .ok ("Expired", info)) ∧
    (∃ info, permitStatusInfo (Date.toDayNumber ⟨2025, 10, 12⟩) true (some "2025-10-20")
      = .ok ("Expiring Soon", info)) ∧
    (∃ info, permitStatusInfo (Date.toDayNumber ⟨2025, 10, 12⟩) true (some "2027-01-01")
      = .ok ("Active", info)) := by
  have h := C10_details_status (Date.toDayNumber ⟨2025, 10, 12⟩) true
  refine ⟨h.1, h.2.1, ?_, ?_, ?_⟩
  · exact (h.2.2 "2024-01-01" ⟨2024, 1, 1⟩ (by decide) (by decide)).1 (by decide)
  · exact ((h.2.2 "2025-10-20" ⟨2025, 10, 20⟩ (by decide) (by decide)).2.1
      (by decide) (by decide))
  · exact (h.2.2 "2027-01-01" ⟨2027, 1, 1⟩ (by decide) (by decide)).2.2 (by decide)

end Permit
